import Mathlib

/-!
Shallow embedding of the igloo-ts WebGL wrapper (src: igloo.ts).

Every wrapper method is a thin pass-through to the underlying
WebGL context, so each class is modelled as a pure state-transition
function that also returns the ordered list of context calls it issues
(a mock-context trace).  The WebGL context itself is abstract: resource
identifiers are natural numbers, location resolvers are functions
supplied as parameters, and driver outcomes (compile status, info logs,
context availability) are explicit inputs.
-/

namespace IglooTS

/-- Error taxonomy: one constructor per distinct throw site in the source.
The source throws plain Error objects; the constructors here tag which
throw statement fired and carry the message-relevant data. -/
inductive IglooError where
  /-- throw in Igloo.getContext: could not create a WebGL context -/
  | contextError
  /-- throw in Program.makeShader: shader failed to compile, with message -/
  | compileError (msg : String)
  /-- throw in Program.constructor after linkProgram: link failed, with message -/
  | linkError (msg : String)
  /-- throw in Program.uniform and Program.matrix: getUniformLocation returned null -/
  | lookupError (name : String)
  /-- throw in Program.uniform: value neither array-like nor number nor boolean -/
  | invalidValue
  /-- runtime TypeError from the dynamic method dispatch hitting an
  undefined method name (non-integer Math.sqrt in Program.matrix) -/
  | typeError
  deriving Repr, DecidableEq

/-- JavaScript string-or-default idiom: the source writes
expressions such as getShaderInfoLog(s) or "Failed to compile shader",
where both null and the empty string select the fallback. -/
def jsOr (s fallback : String) : String :=
  if s = "" then fallback else s

/-! ## Buffer (igloo.ts lines 209-257) -/

/-- GL enum DYNAMIC_DRAW, the default usage hint in Buffer.update. -/
def DYNAMIC_DRAW : Nat := 35048

/-- Payload passed to Buffer.update: either a BufferSource (modelled by
its byte length) or a plain JS Array (the source converts it to a
Float32Array, 4 bytes per element). -/
inductive BufData where
  | raw (byteLength : Nat)
  | jsArray (elems : Nat)
  deriving Repr, DecidableEq

/-- Byte length of the payload after the Array-to-Float32Array
normalization performed at the top of Buffer.update. -/
def BufData.byteLength : BufData → Nat
  | .raw n => n
  | .jsArray l => 4 * l

/-- Mutable fields of class Buffer that Buffer.update touches:
the last-known byte size, initialized to -1 in the constructor. -/
structure BufferState where
  size : Int
  deriving Repr, DecidableEq

/-- Fresh Buffer state as produced by the Buffer constructor. -/
def BufferState.init : BufferState := { size := -1 }

/-- Context calls issued by Buffer methods. -/
inductive BufCall where
  | bindBuffer
  | bufferData (byteLength : Nat) (usage : Nat)
  | bufferSubData (offset : Nat) (byteLength : Nat)
  deriving Repr, DecidableEq

/-- Buffer.update: normalize Array payloads, default usage to
DYNAMIC_DRAW, bind, then either bufferData (reallocate, record new size)
when the recorded size differs from the payload byte length, or
bufferSubData at offset 0 when it is identical. -/
def Buffer.update (st : BufferState) (data : BufData) (usage : Option Nat) :
    BufferState × List BufCall :=
  let u := usage.getD DYNAMIC_DRAW
  if st.size ≠ (data.byteLength : Int) then
    ({ size := data.byteLength }, [.bindBuffer, .bufferData data.byteLength u])
  else
    (st, [.bindBuffer, .bufferSubData 0 data.byteLength])

/-! ## Program variable mapping (igloo.ts field vars, lines 262, 284) -/

/-- A value stored in Program.vars: either a WebGLUniformLocation
(an opaque object, modelled by a Nat id) or an attribute location
(a JS number, possibly -1 for an absent attribute). -/
inductive Loc where
  | uloc (id : Nat)
  | aloc (n : Int)
  deriving Repr, DecidableEq

/-- The name-to-location mapping Program.vars, in insertion order. -/
abbrev Vars := List (String × Loc)

/-- JS property read vars[name] (undefined when absent; JS object keys
are unique, so the first match is the only match). -/
def varsGet : Vars → String → Option Loc
  | [], _ => none
  | (k, l) :: rest, name => if k = name then some l else varsGet rest name

/-- JS property write vars[name] = l for a key not yet present
(the source only assigns when the vars[name] == null check passed). -/
def varsSet (vars : Vars) (name : String) (l : Loc) : Vars :=
  vars ++ [(name, l)]

/-- Context calls issued by Program methods. -/
inductive PCall where
  | getUniformLocation (name : String)
  | getAttribLocation (name : String)
  /-- dynamic dispatch (this.gl as any)[method](v, arr) in uniform -/
  | glVector (method : String) (loc : Loc) (values : List Int)
  /-- dynamic dispatch (this.gl as any)[method](loc, transpose, matrix) -/
  | glMatrix (method : String) (loc : Loc) (transpose : Bool) (values : List Int)
  | uniform1i (loc : Loc) (value : Int)
  | uniform1f (loc : Loc) (value : Int)
  | bindBuffer
  | enableVertexAttribArray (loc : Loc)
  | vertexAttribPointer (loc : Loc) (size : Nat) (stride : Nat)
  | disableVertexAttribArray (n : Int)
  deriving Repr, DecidableEq

/-- Is this trace entry a location query against the context
(getUniformLocation or getAttribLocation)? -/
def PCall.isLocQuery : PCall → Bool
  | .getUniformLocation _ => true
  | .getAttribLocation _ => true
  | _ => false

/-- Number of location-resolver queries in a trace. -/
def locQueries (t : List PCall) : Nat :=
  (t.filter PCall.isLocQuery).length

/-- Result of a Program method: the calls it issued, the vars mapping
after the call (JS mutation persists even when a later statement
throws), and whether it returned normally or threw. -/
structure PResult where
  trace : List PCall
  vars : Vars
  outcome : Except IglooError Unit

/-! ## Program.uniform (igloo.ts lines 325-352) -/

/-- The runtime shape of the value argument of Program.uniform:
array-like (a JS Array or typed array, per Igloo.isArray), a number,
a boolean, or anything else.  Numeric payloads are modelled as Int. -/
inductive UniformValue where
  | arr (xs : List Int)
  | num (x : Int)
  | bool (b : Bool)
  | other
  deriving Repr, DecidableEq

/-- The vector length chosen in uniform: the JS expression
dim ? dim : arrVal.length, so an absent dim and an explicit dim of 0
(falsy) both fall back to the array length. -/
def uniformVecLen (dim : Option Nat) (arrLen : Nat) : Nat :=
  match dim with
  | some d => if d = 0 then arrLen else d
  | none => arrLen

/-- The dispatch half of Program.uniform (after location resolution):
array-like values go through the dynamically composed method name
"uniform" + l + ("i" or "f") + "v"; numbers and booleans go through
uniform1i or uniform1f; anything else throws. JS passes booleans to
uniform1i/uniform1f by coercion (true as 1, false as 0). -/
def uniformDispatch (v : Loc) (value : UniformValue) (i : Bool)
    (dim : Option Nat) : Except IglooError PCall :=
  match value with
  | .arr xs =>
      let l := uniformVecLen dim xs.length
      .ok (.glVector ("uniform" ++ toString l ++ (if i then "i" else "f") ++ "v") v xs)
  | .num x => .ok (if i then .uniform1i v x else .uniform1f v x)
  | .bool b =>
      let x : Int := if b then 1 else 0
      .ok (if i then .uniform1i v x else .uniform1f v x)
  | .other => .error .invalidValue

/-- Program.uniform: if vars[name] == null, query getUniformLocation and
throw when it yields null, otherwise memoize the location; then dispatch
on the value shape.  The resolver res models
getUniformLocation(program, name), none meaning null (not found). -/
def Program.uniform (res : String → Option Nat) (vars : Vars) (name : String)
    (value : UniformValue) (i : Bool) (dim : Option Nat) : PResult :=
  match varsGet vars name with
  | some v =>
      match uniformDispatch v value i dim with
      | .ok c => ⟨[c], vars, .ok ()⟩
      | .error e => ⟨[], vars, .error e⟩
  | none =>
      match res name with
      | none => ⟨[.getUniformLocation name], vars, .error (.lookupError name)⟩
      | some lid =>
          match uniformDispatch (.uloc lid) value i dim with
          | .ok c => ⟨[.getUniformLocation name, c],
                      varsSet vars name (.uloc lid), .ok ()⟩
          | .error e => ⟨[.getUniformLocation name],
                         varsSet vars name (.uloc lid), .error e⟩

/-! ## Program.matrix (igloo.ts lines 361-372) -/

/-- The dispatch half of Program.matrix: the method name is
"uniformMatrix" + Math.sqrt(matrix.length) + "fv".  When the length is
a perfect square Math.sqrt yields exactly its integer square root; any
other length embeds a non-integer numeral in the name, the property
lookup yields undefined and the call site throws a TypeError. -/
def matrixDispatch (v : Loc) (mat : List Int) (transpose : Bool) :
    Except IglooError PCall :=
  if Nat.sqrt mat.length * Nat.sqrt mat.length = mat.length then
    .ok (.glMatrix ("uniformMatrix" ++ toString (Nat.sqrt mat.length) ++ "fv")
          v transpose mat)
  else
    .error .typeError

/-- Program.matrix: same location resolution and memoization as uniform
(query getUniformLocation once, throw on null), then the square-matrix
dispatch with Boolean(transpose). -/
def Program.matrix (res : String → Option Nat) (vars : Vars) (name : String)
    (mat : List Int) (transpose : Bool) : PResult :=
  match varsGet vars name with
  | some v =>
      match matrixDispatch v mat transpose with
      | .ok c => ⟨[c], vars, .ok ()⟩
      | .error e => ⟨[], vars, .error e⟩
  | none =>
      match res name with
      | none => ⟨[.getUniformLocation name], vars, .error (.lookupError name)⟩
      | some lid =>
          match matrixDispatch (.uloc lid) mat transpose with
          | .ok c => ⟨[.getUniformLocation name, c],
                      varsSet vars name (.uloc lid), .ok ()⟩
          | .error e => ⟨[.getUniformLocation name],
                         varsSet vars name (.uloc lid), .error e⟩

/-! ## Program.attrib (igloo.ts lines 392-403) -/

/-- Program.attrib: if vars[name] == null, query getAttribLocation and
store its result unconditionally (no existence check; -1 is stored as a
number like any other); then bind the buffer, enable the vertex
attribute array at the stored location and describe its layout, with
stride == null defaulting to 0.  The resolver ares models
getAttribLocation(program, name), which always returns a number. -/
def Program.attrib (ares : String → Int) (vars : Vars) (name : String)
    (size : Nat) (stride : Option Nat) : PResult :=
  match varsGet vars name with
  | some v =>
      ⟨[.bindBuffer, .enableVertexAttribArray v,
        .vertexAttribPointer v size (stride.getD 0)], vars, .ok ()⟩
  | none =>
      let l := ares name
      ⟨[.getAttribLocation name, .bindBuffer, .enableVertexAttribArray (.aloc l),
        .vertexAttribPointer (.aloc l) size (stride.getD 0)],
       varsSet vars name (.aloc l), .ok ()⟩

/-! ## Program.disable (igloo.ts lines 429-439) -/

/-- Program.disable: iterate the vars mapping in insertion order and
call disableVertexAttribArray on every entry whose stored value is a
number (an attribute location); entries holding a WebGLUniformLocation
object are skipped.  The mapping itself is not modified. -/
def Program.disable : Vars → List PCall
  | [] => []
  | (_, l) :: rest =>
      (match l with
       | .aloc n => [PCall.disableVertexAttribArray n]
       | .uloc _ => []) ++ Program.disable rest

/-- The attribute locations among the tracked entries, in order:
the entries whose stored value is a number. -/
def attribLocs : Vars → List Int
  | [] => []
  | (_, .aloc n) :: rest => n :: attribLocs rest
  | (_, .uloc _) :: rest => attribLocs rest

/-! ## Program constructor and makeShader (igloo.ts lines 272-306) -/

/-- GL enum VERTEX_SHADER. -/
def VERTEX_SHADER : Nat := 35633

/-- GL enum FRAGMENT_SHADER. -/
def FRAGMENT_SHADER : Nat := 35632

/-- Driver outcome for compiling one shader source: the COMPILE_STATUS
parameter and the info log (empty string models both an empty log and a
null log). -/
structure ShaderOutcome where
  compiles : Bool
  infoLog : String
  deriving Repr, DecidableEq

/-- Driver outcome for linking: the LINK_STATUS parameter and the
program info log. -/
structure LinkOutcome where
  links : Bool
  infoLog : String
  deriving Repr, DecidableEq

/-- Context calls issued by the Program constructor. -/
inductive ProgCall where
  | createProgram
  | createShader (t : Nat)
  | shaderSource (t : Nat)
  | compileShader (t : Nat)
  | attachShader (t : Nat)
  | linkProgram
  deriving Repr, DecidableEq

/-- Program.makeShader: create, source and compile a shader of the given
type; return it when COMPILE_STATUS is set, otherwise throw with the
shader info log (or the fallback message when the log is empty/null). -/
def Program.makeShader (t : Nat) (o : ShaderOutcome) :
    List ProgCall × Except IglooError Unit :=
  ([.createShader t, .shaderSource t, .compileShader t],
   if o.compiles then .ok ()
   else .error (.compileError (jsOr o.infoLog "Failed to compile shader")))

/-- Program constructor: createProgram, compile and attach the vertex
shader, compile and attach the fragment shader (each makeShader call is
evaluated before the attachShader that consumes it), linkProgram, then
check LINK_STATUS and throw with the program info log on failure. -/
def Program.construct (v f : ShaderOutcome) (lk : LinkOutcome) :
    List ProgCall × Except IglooError Unit :=
  let mv := Program.makeShader VERTEX_SHADER v
  match mv.2 with
  | .error e => ([.createProgram] ++ mv.1, .error e)
  | .ok _ =>
    let mf := Program.makeShader FRAGMENT_SHADER f
    match mf.2 with
    | .error e =>
        ([.createProgram] ++ mv.1 ++ [.attachShader VERTEX_SHADER] ++ mf.1,
         .error e)
    | .ok _ =>
        ([.createProgram] ++ mv.1 ++ [.attachShader VERTEX_SHADER] ++ mf.1
           ++ [.attachShader FRAGMENT_SHADER, .linkProgram],
         if lk.links then .ok ()
         else .error (.linkError (jsOr lk.infoLog "Failed to link program")))

/-! ## Framebuffer (igloo.ts lines 142-204) -/

/-- Context calls issued by Framebuffer methods. -/
inductive FBCall where
  | createFramebuffer
  | bindFramebuffer
  | createRenderbuffer
  | renderbufferStorage (width height : Nat)
  | framebufferRenderbuffer (rb : Nat)
  deriving Repr, DecidableEq

/-- Framebuffer constructor: the framebuffer field is the second
argument exactly when the call site passed two arguments
(arguments.length == 2), even when that argument is null; with one
argument a fresh framebuffer is created via createFramebuffer.  fbArg
is the parameter value after TS default filling (none models null);
fresh is the id createFramebuffer would return. -/
def Framebuffer.construct (fresh : Nat) (argCount : Nat) (fbArg : Option Nat) :
    Option Nat × List FBCall :=
  if argCount = 2 then (fbArg, [])
  else (some fresh, [.createFramebuffer])

/-- Mutable field of class Framebuffer that attachDepth touches:
the depth renderbuffer id, null until first allocated. -/
structure FBState where
  renderbuffer : Option Nat
  deriving Repr, DecidableEq

/-- Framebuffer.attachDepth: bind this framebuffer, then only when no
renderbuffer has been recorded yet, create one (fresh is the id
createRenderbuffer returns), allocate DEPTH_COMPONENT16 storage of the
given size and attach it as the depth attachment. -/
def Framebuffer.attachDepth (fresh : Nat) (st : FBState) (width height : Nat) :
    FBState × List FBCall :=
  if st.renderbuffer = none then
    ({ renderbuffer := some fresh },
     [.bindFramebuffer, .createRenderbuffer,
      .renderbufferStorage width height, .framebufferRenderbuffer fresh])
  else
    (st, [.bindFramebuffer])

/-! ## Igloo facade (igloo.ts lines 444-495) -/

/-- The value of the gl field of an Igloo instance: either a rendering
context or (in the guard branch of the constructor) the canvas element
itself, which the TS code would keep when getContext returned a falsy
value. -/
inductive GLHandle where
  | ctx (c : Nat)
  | canvasElem (id : Nat)
  deriving Repr, DecidableEq

/-- Igloo.getContext: ask the canvas for a webgl2 context (avail models
the result, none covering both a null return and a thrown exception
caught by the try block); when it is null and noerror was not requested,
throw ContextError, otherwise return the possibly-null context. -/
def Igloo.getContext (avail : Option Nat) (noerror : Bool) :
    Except IglooError (Option Nat) :=
  if avail = none ∧ noerror = false then .error .contextError
  else .ok avail

/-- Fields of an Igloo instance set by its constructor. -/
structure IglooState where
  gl : GLHandle
  canvas : Nat
  defaultFramebuffer : Option Nat
  deriving Repr, DecidableEq

/-- Igloo constructor, canvas branch: call the static getContext with
only the canvas and options (noerror is not passed, hence false); keep
the canvas as the gl value unless getContext returned a truthy context
(the "if (temp) gl = temp" guard); finally wrap the default render
target as new Framebuffer(gl, null) — a two-argument call, so its
framebuffer field is null. -/
def Igloo.constructFromCanvas (canvasId : Nat) (avail : Option Nat) :
    Except IglooError IglooState :=
  match Igloo.getContext avail false with
  | .error e => .error e
  | .ok temp =>
      let gl := match temp with
                | some c => GLHandle.ctx c
                | none => GLHandle.canvasElem canvasId
      .ok { gl := gl, canvas := canvasId,
            defaultFramebuffer := (Framebuffer.construct 0 2 none).1 }

/-! # Theorems -/

/-! ## C1: Buffer.update reallocation rule -/

/-- After any update the recorded size equals the payload byte length. -/
theorem Buffer.update_size (st : BufferState) (d : BufData) (u : Option Nat) :
    ((Buffer.update st d u).1).size = d.byteLength := by
  unfold Buffer.update
  by_cases h : st.size = (d.byteLength : Int)
  · simp [h]
  · simp [h]

/-- An update from a state whose recorded size equals the payload byte
length takes the bufferSubData branch and leaves the state unchanged. -/
theorem Buffer.update_same (st : BufferState) (d : BufData) (u : Option Nat)
    (h : st.size = (d.byteLength : Int)) :
    Buffer.update st d u = (st, [.bindBuffer, .bufferSubData 0 d.byteLength]) := by
  unfold Buffer.update
  simp [h]

/-- An update from a state whose recorded size differs from the payload
byte length takes the bufferData branch and records the new size. -/
theorem Buffer.update_diff (st : BufferState) (d : BufData) (u : Option Nat)
    (h : st.size ≠ (d.byteLength : Int)) :
    Buffer.update st d u
      = ({ size := d.byteLength },
         [.bindBuffer, .bufferData d.byteLength (u.getD DYNAMIC_DRAW)]) := by
  unfold Buffer.update
  simp [h]

/-- C1: across two consecutive Buffer.update calls, if the second
payload has a byte length equal to the size recorded by the first call, the
second call issues only a bind and a bufferSubData at offset 0 (no
bufferData reallocation) and leaves the recorded size unchanged; if the
byte lengths differ, the second call issues bufferData and records the
new byte length. -/
theorem C1_buffer_update (st : BufferState) (d1 d2 : BufData) (u1 u2 : Option Nat) :
    (d2.byteLength = d1.byteLength →
      (Buffer.update (Buffer.update st d1 u1).1 d2 u2).2
        = [.bindBuffer, .bufferSubData 0 d2.byteLength]
      ∧ (Buffer.update (Buffer.update st d1 u1).1 d2 u2).1
        = (Buffer.update st d1 u1).1)
    ∧ (d2.byteLength ≠ d1.byteLength →
      (Buffer.update (Buffer.update st d1 u1).1 d2 u2).2
        = [.bindBuffer, .bufferData d2.byteLength (u2.getD DYNAMIC_DRAW)]
      ∧ ((Buffer.update (Buffer.update st d1 u1).1 d2 u2).1).size
        = d2.byteLength) := by
  have h1 : ((Buffer.update st d1 u1).1).size = d1.byteLength :=
    Buffer.update_size st d1 u1
  constructor
  · intro heq
    have hs : ((Buffer.update st d1 u1).1).size = (d2.byteLength : Int) := by
      rw [h1, heq]
    rw [Buffer.update_same _ _ u2 hs]
    exact ⟨rfl, rfl⟩
  · intro hne
    have hs : ((Buffer.update st d1 u1).1).size ≠ (d2.byteLength : Int) := by
      rw [h1]
      exact_mod_cast fun hc => hne (by exact_mod_cast hc.symm)
    rw [Buffer.update_diff _ _ u2 hs]
    exact ⟨rfl, rfl⟩

/-- Witness for C1 at a concrete input: a 12-byte payload followed by a
12-byte payload (same size), and the changed-size hypothesis checked
with an 8-byte payload. -/
theorem C1_buffer_update_witness :
    ((12 : Nat) = (12 : Nat)
      ∧ (Buffer.update (Buffer.update BufferState.init (.raw 12) none).1 (.raw 12) none).2
          = [.bindBuffer, .bufferSubData 0 12])
    ∧ ((8 : Nat) ≠ (12 : Nat)
      ∧ (Buffer.update (Buffer.update BufferState.init (.raw 12) none).1 (.raw 8) none).2
          = [.bindBuffer, .bufferData 8 DYNAMIC_DRAW]) := by
  refine ⟨⟨rfl, ?_⟩, ⟨by decide, ?_⟩⟩
  · exact ((C1_buffer_update BufferState.init (.raw 12) (.raw 12) none none).1 rfl).1
  · exact ((C1_buffer_update BufferState.init (.raw 12) (.raw 8) none none).2 (by decide)).1

/-! ## C4: Framebuffer.attachDepth idempotence -/

/-- C4: from a state with no depth renderbuffer, the first attachDepth
call creates one renderbuffer, allocates storage of the requested size
and attaches it; a subsequent call, with any dimensions, leaves the
state (hence the originally allocated renderbuffer) unchanged and
issues no renderbuffer operation at all, only the framebuffer bind that
every attachDepth call performs. -/
theorem C4_attachDepth_idempotent (st : FBState) (fresh fresh2 w1 h1 w2 h2 : Nat)
    (hrb : st.renderbuffer = none) :
    (Framebuffer.attachDepth fresh st w1 h1).1.renderbuffer = some fresh
    ∧ (Framebuffer.attachDepth fresh st w1 h1).2
        = [.bindFramebuffer, .createRenderbuffer,
           .renderbufferStorage w1 h1, .framebufferRenderbuffer fresh]
    ∧ (Framebuffer.attachDepth fresh2 (Framebuffer.attachDepth fresh st w1 h1).1 w2 h2).1
        = (Framebuffer.attachDepth fresh st w1 h1).1
    ∧ (Framebuffer.attachDepth fresh2 (Framebuffer.attachDepth fresh st w1 h1).1 w2 h2).2
        = [.bindFramebuffer] := by
  simp [Framebuffer.attachDepth, hrb]

/-- Witness for C4: attachDepth(64,64) then attachDepth(128,128) on a
fresh Framebuffer keeps the first renderbuffer and the second call only
binds. -/
theorem C4_attachDepth_idempotent_witness :
    ((none : Option Nat) = none)
    ∧ (Framebuffer.attachDepth 5 { renderbuffer := none } 64 64).1.renderbuffer = some 5
    ∧ (Framebuffer.attachDepth 9 (Framebuffer.attachDepth 5 { renderbuffer := none } 64 64).1 128 128).2
        = [.bindFramebuffer] := by
  have h := C4_attachDepth_idempotent { renderbuffer := none } 5 9 64 64 128 128 rfl
  exact ⟨rfl, h.1, h.2.2.2⟩

/-! ## C9: Framebuffer constructor argument-count dependence -/

/-- C9: the Framebuffer constructor keys on arguments.length, not on the
parameter value: any single-argument call creates a fresh framebuffer
via createFramebuffer regardless of the declared default, any
two-argument call wraps the supplied value as-is (null included) with
no createFramebuffer call, and the two call shapes are observably
different even when the parameter value is null in both. -/
theorem C9_framebuffer_construct (fresh : Nat) :
    (∀ v : Option Nat,
      Framebuffer.construct fresh 1 v = (some fresh, [.createFramebuffer]))
    ∧ (∀ v : Option Nat, Framebuffer.construct fresh 2 v = (v, []))
    ∧ (Framebuffer.construct fresh 1 none).2 ≠ (Framebuffer.construct fresh 2 none).2 := by
  refine ⟨fun v => ?_, fun v => ?_, ?_⟩ <;> simp [Framebuffer.construct]

/-! ## C8: Program.disable hits exactly the attribute locations -/

/-- Membership in attribLocs is membership of a number-valued entry in
the vars mapping. -/
theorem mem_attribLocs (vars : Vars) (n : Int) :
    n ∈ attribLocs vars ↔ ∃ nm, (nm, Loc.aloc n) ∈ vars := by
  induction vars with
  | nil => simp [attribLocs]
  | cons p rest ih =>
    obtain ⟨nm, l⟩ := p
    cases l with
    | uloc id => simp [attribLocs, ih]
    | aloc m =>
      simp only [attribLocs, List.mem_cons, ih]
      constructor
      · rintro (h | ⟨nm2, h2⟩)
        · exact ⟨nm, Or.inl (by rw [h])⟩
        · exact ⟨nm2, Or.inr h2⟩
      · rintro ⟨nm2, h2 | h2⟩
        · simp only [Prod.mk.injEq, Loc.aloc.injEq] at h2
          exact Or.inl h2.2
        · exact Or.inr ⟨nm2, h2⟩

/-- C8: disable() issues exactly one disableVertexAttribArray per
tracked entry whose stored value is a number (an attribute location),
in order; a location n is disabled iff some tracked name resolved to
attribute location n; and no other kind of context call is issued, so
resolved uniform locations and uniform bindings are untouched. -/
theorem C8_disable_attribs_only (vars : Vars) :
    Program.disable vars = (attribLocs vars).map PCall.disableVertexAttribArray
    ∧ (∀ n : Int, PCall.disableVertexAttribArray n ∈ Program.disable vars
        ↔ ∃ nm, (nm, Loc.aloc n) ∈ vars)
    ∧ (∀ c ∈ Program.disable vars, ∃ n, c = PCall.disableVertexAttribArray n) := by
  have hmap : Program.disable vars = (attribLocs vars).map PCall.disableVertexAttribArray := by
    induction vars with
    | nil => rfl
    | cons p rest ih =>
      obtain ⟨nm, l⟩ := p
      cases l <;> simp [Program.disable, attribLocs, ih]
  refine ⟨hmap, fun n => ?_, fun c hc => ?_⟩
  · rw [hmap]
    simp only [List.mem_map]
    constructor
    · rintro ⟨m, hm, he⟩
      have : m = n := (PCall.disableVertexAttribArray.injEq _ _ ▸ he)
      exact (mem_attribLocs vars n).1 (this ▸ hm)
    · intro h
      exact ⟨n, (mem_attribLocs vars n).2 h, rfl⟩
  · rw [hmap] at hc
    obtain ⟨m, _, he⟩ := List.mem_map.1 hc
    exact ⟨m, he.symm⟩

/-! ## C10: the Igloo constructor never keeps the canvas as gl -/

/-- C10: the Igloo constructor calls the static getContext without the
noerror flag, so from a canvas it either propagates ContextError (no
context obtainable) or succeeds with the obtained context as its gl
field; whenever construction succeeds the gl field is a rendering
context, never the canvas element (the "if (temp)" guard branch that
keeps the canvas is unreachable). -/
theorem C10_igloo_gl_never_canvas (canvasId : Nat) (avail : Option Nat) :
    (avail = none →
      Igloo.constructFromCanvas canvasId avail = .error .contextError)
    ∧ (∀ c, avail = some c →
      Igloo.constructFromCanvas canvasId avail
        = .ok { gl := .ctx c, canvas := canvasId, defaultFramebuffer := none })
    ∧ (∀ st, Igloo.constructFromCanvas canvasId avail = .ok st →
        ∃ c, st.gl = GLHandle.ctx c) := by
  refine ⟨?_, ?_, ?_⟩
  · intro h
    subst h
    simp [Igloo.constructFromCanvas, Igloo.getContext]
  · intro c h
    subst h
    simp [Igloo.constructFromCanvas, Igloo.getContext, Framebuffer.construct]
  · intro st h
    cases avail with
    | none => simp [Igloo.constructFromCanvas, Igloo.getContext] at h
    | some c =>
      simp [Igloo.constructFromCanvas, Igloo.getContext] at h
      exact ⟨c, by rw [← h]⟩

/-- Witness for C10: with a canvas id 7 and an obtainable context 3,
construction succeeds with gl = ctx 3. -/
theorem C10_igloo_gl_never_canvas_witness :
    Igloo.constructFromCanvas 7 (some 3)
      = .ok { gl := .ctx 3, canvas := 7, defaultFramebuffer := none } :=
  (C10_igloo_gl_never_canvas 7 (some 3)).2.1 3 rfl

/-! ## C5: ContextError on construction, null marker in no-error mode -/

/-- C5: constructing the facade from a canvas when no rendering context
is obtainable fails with ContextError, and the context-acquisition
routine in no-error mode returns the null context marker instead of
failing. -/
theorem C5_context_error (canvasId : Nat) (avail : Option Nat)
    (h : avail = none) :
    Igloo.constructFromCanvas canvasId avail = .error .contextError
    ∧ Igloo.getContext avail true = .ok none := by
  subst h
  exact ⟨by simp [Igloo.constructFromCanvas, Igloo.getContext],
         by simp [Igloo.getContext]⟩

/-- Witness for C5 at canvas id 7 with no obtainable context. -/
theorem C5_context_error_witness :
    Igloo.constructFromCanvas 7 none = .error .contextError
    ∧ Igloo.getContext none true = .ok none :=
  C5_context_error 7 none rfl

/-! ## C7: CompileError before any link attempt, LinkError after -/

/-- C7: if the vertex shader fails to compile, construction throws at
the vertex makeShader call with the shader info log and the trace holds
no linkProgram; if the vertex shader compiles and the fragment shader
fails, likewise with the fragment log and still no linkProgram; if both
compile and linking fails, construction throws LinkError with the
program info log (an empty/null driver log selects the fallback message
in each case). -/
theorem C7_compile_before_link (v f : ShaderOutcome) (lk : LinkOutcome) :
    (v.compiles = false →
      (Program.construct v f lk).2
        = .error (.compileError (jsOr v.infoLog "Failed to compile shader"))
      ∧ ProgCall.linkProgram ∉ (Program.construct v f lk).1)
    ∧ (v.compiles = true → f.compiles = false →
      (Program.construct v f lk).2
        = .error (.compileError (jsOr f.infoLog "Failed to compile shader"))
      ∧ ProgCall.linkProgram ∉ (Program.construct v f lk).1)
    ∧ (v.compiles = true → f.compiles = true → lk.links = false →
      (Program.construct v f lk).2
        = .error (.linkError (jsOr lk.infoLog "Failed to link program"))) := by
  refine ⟨fun hv => ?_, fun hv hf => ?_, fun hv hf hl => ?_⟩
  · constructor <;>
      simp [Program.construct, Program.makeShader, hv, VERTEX_SHADER, FRAGMENT_SHADER]
  · constructor <;>
      simp [Program.construct, Program.makeShader, hv, hf, VERTEX_SHADER, FRAGMENT_SHADER]
  · simp [Program.construct, Program.makeShader, hv, hf, hl]

/-- Witness for C7: a vertex shader that fails to compile with log
"bad vertex", checked together with the other two hypothesis patterns
at concrete outcomes. -/
theorem C7_compile_before_link_witness :
    ((Program.construct ⟨false, "bad vertex"⟩ ⟨true, ""⟩ ⟨true, ""⟩).2
        = .error (.compileError "bad vertex")
      ∧ ProgCall.linkProgram
          ∉ (Program.construct ⟨false, "bad vertex"⟩ ⟨true, ""⟩ ⟨true, ""⟩).1)
    ∧ ((Program.construct ⟨true, ""⟩ ⟨false, "bad fragment"⟩ ⟨true, ""⟩).2
        = .error (.compileError "bad fragment"))
    ∧ ((Program.construct ⟨true, ""⟩ ⟨true, ""⟩ ⟨false, "bad link"⟩).2
        = .error (.linkError "bad link")) := by
  refine ⟨?_, ?_, ?_⟩
  · have h := (C7_compile_before_link ⟨false, "bad vertex"⟩ ⟨true, ""⟩ ⟨true, ""⟩).1 rfl
    simpa [jsOr] using h
  · have h := ((C7_compile_before_link ⟨true, ""⟩ ⟨false, "bad fragment"⟩ ⟨true, ""⟩).2.1 rfl rfl).1
    simpa [jsOr] using h
  · have h := (C7_compile_before_link ⟨true, ""⟩ ⟨true, ""⟩ ⟨false, "bad link"⟩).2.2 rfl rfl rfl
    simpa [jsOr] using h

/-! ## C6: Program.matrix picks the square root sized entry point -/

/-- C6: for an input whose flattened element count is the perfect
square k * k, Program.matrix (here on first reference of the name, with
a resolvable location) invokes the dynamically composed entry point
uniformMatrix k fv, so 4, 9 and 16 elements select the 2x2, 3x3 and 4x4
variants. -/
theorem C6_matrix_sqrt_dispatch (res : String → Option Nat) (vars : Vars)
    (name : String) (mat : List Int) (transpose : Bool) (k lid : Nat)
    (hv : varsGet vars name = none) (hres : res name = some lid)
    (hk : mat.length = k * k) :
    Program.matrix res vars name mat transpose
      = ⟨[.getUniformLocation name,
          .glMatrix ("uniformMatrix" ++ toString k ++ "fv") (.uloc lid) transpose mat],
         varsSet vars name (.uloc lid), .ok ()⟩ := by
  simp [Program.matrix, matrixDispatch, hv, hres, hk, Nat.sqrt_eq]

/-- Witness for C6: a 9-element matrix dispatches to uniformMatrix3fv. -/
theorem C6_matrix_sqrt_dispatch_witness :
    Program.matrix (fun _ => some 4) [] "m" [1, 2, 3, 4, 5, 6, 7, 8, 9] true
      = ⟨[.getUniformLocation "m",
          .glMatrix "uniformMatrix3fv" (.uloc 4) true [1, 2, 3, 4, 5, 6, 7, 8, 9]],
         [("m", .uloc 4)], .ok ()⟩ := by
  have h := C6_matrix_sqrt_dispatch (fun _ => some 4) [] "m"
    [1, 2, 3, 4, 5, 6, 7, 8, 9] true 3 4 rfl rfl rfl
  simpa [varsSet] using h

/-! ## C2: location memoization lemmas -/

/-- Writing a previously absent key makes it readable. -/
theorem varsGet_varsSet (vars : Vars) (name : String) (l : Loc)
    (hv : varsGet vars name = none) :
    varsGet (varsSet vars name l) name = some l := by
  induction vars with
  | nil => simp [varsGet, varsSet]
  | cons p rest ih =>
    obtain ⟨k, l2⟩ := p
    by_cases hk : k = name
    · simp [varsGet, hk] at hv
    · simp only [varsGet, hk, if_false, varsSet, List.cons_append] at *
      exact ih hv

/-- Location queries distribute over trace concatenation. -/
theorem locQueries_append (t1 t2 : List PCall) :
    locQueries (t1 ++ t2) = locQueries t1 + locQueries t2 := by
  simp [locQueries, List.filter_append]

/-- First uniform call on an unresolved name with a resolvable location:
the vars mapping gains exactly that entry and the trace holds exactly
one location query. -/
theorem uniform_first (res : String → Option Nat) (vars : Vars) (name : String)
    (value : UniformValue) (i : Bool) (dim : Option Nat) (lid : Nat)
    (hv : varsGet vars name = none) (hres : res name = some lid) :
    (Program.uniform res vars name value i dim).vars = varsSet vars name (.uloc lid)
    ∧ locQueries (Program.uniform res vars name value i dim).trace = 1 := by
  cases value <;> cases i <;>
    simp [Program.uniform, uniformDispatch, hv, hres, locQueries, PCall.isLocQuery]

/-- A uniform call on an already resolved name issues no location query
and leaves the vars mapping unchanged. -/
theorem uniform_cached (res : String → Option Nat) (vars : Vars) (name : String)
    (value : UniformValue) (i : Bool) (dim : Option Nat) (v : Loc)
    (hv : varsGet vars name = some v) :
    (Program.uniform res vars name value i dim).vars = vars
    ∧ locQueries (Program.uniform res vars name value i dim).trace = 0 := by
  cases value <;> cases i <;>
    simp [Program.uniform, uniformDispatch, hv, locQueries, PCall.isLocQuery]

/-- First matrix call on an unresolved name with a resolvable location:
the vars mapping gains exactly that entry and the trace holds exactly
one location query. -/
theorem matrix_first (res : String → Option Nat) (vars : Vars) (name : String)
    (mat : List Int) (tr : Bool) (lid : Nat)
    (hv : varsGet vars name = none) (hres : res name = some lid) :
    (Program.matrix res vars name mat tr).vars = varsSet vars name (.uloc lid)
    ∧ locQueries (Program.matrix res vars name mat tr).trace = 1 := by
  by_cases hs : Nat.sqrt mat.length * Nat.sqrt mat.length = mat.length <;>
    simp [Program.matrix, matrixDispatch, hv, hres, hs, locQueries, PCall.isLocQuery]

/-- A matrix call on an already resolved name issues no location query
and leaves the vars mapping unchanged. -/
theorem matrix_cached (res : String → Option Nat) (vars : Vars) (name : String)
    (mat : List Int) (tr : Bool) (v : Loc)
    (hv : varsGet vars name = some v) :
    (Program.matrix res vars name mat tr).vars = vars
    ∧ locQueries (Program.matrix res vars name mat tr).trace = 0 := by
  by_cases hs : Nat.sqrt mat.length * Nat.sqrt mat.length = mat.length <;>
    simp [Program.matrix, matrixDispatch, hv, hs, locQueries, PCall.isLocQuery]

/-- First attrib call on an unresolved name: the vars mapping gains the
getAttribLocation result and the trace holds exactly one location
query. -/
theorem attrib_first (ares : String → Int) (vars : Vars) (name : String)
    (size : Nat) (stride : Option Nat)
    (hv : varsGet vars name = none) :
    (Program.attrib ares vars name size stride).vars
      = varsSet vars name (.aloc (ares name))
    ∧ locQueries (Program.attrib ares vars name size stride).trace = 1 := by
  simp [Program.attrib, hv, locQueries, PCall.isLocQuery]

/-- An attrib call on an already resolved name issues no location query
and leaves the vars mapping unchanged. -/
theorem attrib_cached (ares : String → Int) (vars : Vars) (name : String)
    (size : Nat) (stride : Option Nat) (v : Loc)
    (hv : varsGet vars name = some v) :
    (Program.attrib ares vars name size stride).vars = vars
    ∧ locQueries (Program.attrib ares vars name size stride).trace = 0 := by
  simp [Program.attrib, hv, locQueries, PCall.isLocQuery]

/-- C2: starting from a Program whose vars mapping does not yet hold the
name, two consecutive uniform calls (likewise matrix calls, likewise
attrib calls) with that name query the location resolver exactly once in
total; the first call stores the resolved location and the second call
leaves the mapping unchanged; and with a resolver that does not find the
name, uniform throws a lookup error after its single query and caches
nothing. -/
theorem C2_location_memoization (res : String → Option Nat) (ares : String → Int)
    (vars : Vars) (name : String) (value : UniformValue) (i : Bool)
    (dim : Option Nat) (mat : List Int) (tr : Bool) (size : Nat)
    (stride : Option Nat) (lid : Nat)
    (hv : varsGet vars name = none) (hres : res name = some lid) :
    locQueries ((Program.uniform res vars name value i dim).trace
      ++ (Program.uniform res (Program.uniform res vars name value i dim).vars
            name value i dim).trace) = 1
    ∧ varsGet (Program.uniform res vars name value i dim).vars name
        = some (.uloc lid)
    ∧ (Program.uniform res (Program.uniform res vars name value i dim).vars
        name value i dim).vars
        = (Program.uniform res vars name value i dim).vars
    ∧ locQueries ((Program.matrix res vars name mat tr).trace
      ++ (Program.matrix res (Program.matrix res vars name mat tr).vars
            name mat tr).trace) = 1
    ∧ locQueries ((Program.attrib ares vars name size stride).trace
      ++ (Program.attrib ares (Program.attrib ares vars name size stride).vars
            name size stride).trace) = 1
    ∧ varsGet (Program.attrib ares vars name size stride).vars name
        = some (.aloc (ares name))
    ∧ (∀ res2 : String → Option Nat, res2 name = none →
        (Program.uniform res2 vars name value i dim).vars = vars
        ∧ (Program.uniform res2 vars name value i dim).outcome
            = .error (.lookupError name)
        ∧ (Program.uniform res2 vars name value i dim).trace
            = [.getUniformLocation name]) := by
  obtain ⟨hu1v, hu1q⟩ := uniform_first res vars name value i dim lid hv hres
  have hu1g : varsGet (Program.uniform res vars name value i dim).vars name
      = some (.uloc lid) := by
    rw [hu1v]
    exact varsGet_varsSet vars name _ hv
  obtain ⟨hu2v, hu2q⟩ := uniform_cached res _ name value i dim _ hu1g
  obtain ⟨hm1v, hm1q⟩ := matrix_first res vars name mat tr lid hv hres
  have hm1g : varsGet (Program.matrix res vars name mat tr).vars name
      = some (.uloc lid) := by
    rw [hm1v]
    exact varsGet_varsSet vars name _ hv
  obtain ⟨hm2v, hm2q⟩ := matrix_cached res _ name mat tr _ hm1g
  obtain ⟨ha1v, ha1q⟩ := attrib_first ares vars name size stride hv
  have ha1g : varsGet (Program.attrib ares vars name size stride).vars name
      = some (.aloc (ares name)) := by
    rw [ha1v]
    exact varsGet_varsSet vars name _ hv
  obtain ⟨ha2v, ha2q⟩ := attrib_cached ares _ name size stride _ ha1g
  refine ⟨?_, hu1g, hu2v, ?_, ?_, ha1g, ?_⟩
  · rw [locQueries_append, hu1q, hu2q]
  · rw [locQueries_append, hm1q, hm2q]
  · rw [locQueries_append, ha1q, ha2q]
  · intro res2 hres2
    refine ⟨?_, ?_, ?_⟩ <;> simp [Program.uniform, hv, hres2]

/-- Witness for C2 at concrete resolvers and inputs: name "u", resolver
finding location 5, attribute resolver returning 2. -/
theorem C2_location_memoization_witness :
    locQueries ((Program.uniform (fun _ => some 5) [] "u" (.num 1) false none).trace
      ++ (Program.uniform (fun _ => some 5)
            (Program.uniform (fun _ => some 5) [] "u" (.num 1) false none).vars
            "u" (.num 1) false none).trace) = 1
    ∧ varsGet (Program.uniform (fun _ => some 5) [] "u" (.num 1) false none).vars "u"
        = some (.uloc 5) := by
  have h := C2_location_memoization (fun _ => some 5) (fun _ => (2 : Int)) [] "u"
    (.num 1) false none [1, 2, 3, 4] false 2 none 5 rfl rfl
  exact ⟨h.1, h.2.1⟩

/-! ## C3: uniform value dispatch -/

/-- C3 counterexample: with an explicitly given dim of 0 (a falsy JS
number) and a 3-element array, the dispatched entry point is sized to
the array length (uniform3fv), not to the given dim (uniform0fv), so
the rule "sized to the explicit dim when given" fails at dim = 0. -/
theorem C3_dim_zero_counterexample :
    (Program.uniform (fun _ => some 0) [("u", Loc.uloc 7)] "u"
        (.arr [1, 2, 3]) false (some 0)).trace
      ≠ [.glVector "uniform0fv" (.uloc 7) [1, 2, 3]]
    ∧ (Program.uniform (fun _ => some 0) [("u", Loc.uloc 7)] "u"
        (.arr [1, 2, 3]) false (some 0)).trace
      = [.glVector "uniform3fv" (.uloc 7) [1, 2, 3]] := by
  constructor
  · decide
  · decide

/-- C3 (amended): for a uniform call whose name is already resolved to
location v: an array-like value invokes the vector entry point sized to
the explicit dim when that dim is given and nonzero, otherwise to the
array length, with the integer variant exactly when the integer flag is
set; a scalar number calls uniform1i when the flag is set and uniform1f
otherwise, and so does a boolean (coerced to 1 or 0); any other value
shape throws the invalid-value error. -/
theorem C3_uniform_dispatch (res : String → Option Nat) (vars : Vars)
    (name : String) (xs : List Int) (i : Bool) (dim : Option Nat)
    (x : Int) (b : Bool) (v : Loc)
    (hv : varsGet vars name = some v) :
    ((dim = none →
      (Program.uniform res vars name (.arr xs) i dim).trace
        = [.glVector ("uniform" ++ toString xs.length
            ++ (if i then "i" else "f") ++ "v") v xs])
    ∧ (∀ d : Nat, dim = some d → d ≠ 0 →
      (Program.uniform res vars name (.arr xs) i dim).trace
        = [.glVector ("uniform" ++ toString d
            ++ (if i then "i" else "f") ++ "v") v xs])
    ∧ (dim = some 0 →
      (Program.uniform res vars name (.arr xs) i dim).trace
        = [.glVector ("uniform" ++ toString xs.length
            ++ (if i then "i" else "f") ++ "v") v xs])
    ∧ ((Program.uniform res vars name (.num x) i dim).trace
        = [if i then .uniform1i v x else .uniform1f v x])
    ∧ ((Program.uniform res vars name (.bool b) i dim).trace
        = [if i then .uniform1i v (if b then 1 else 0)
           else .uniform1f v (if b then 1 else 0)])
    ∧ ((Program.uniform res vars name .other i dim).outcome
        = .error .invalidValue)) := by
  refine ⟨fun hd => ?_, fun d hd hdz => ?_, fun hd => ?_, ?_, ?_, ?_⟩ <;>
    first
      | (subst hd
         simp [Program.uniform, uniformDispatch, uniformVecLen, hv, hdz])
      | (try subst hd
         cases i <;>
           simp [Program.uniform, uniformDispatch, uniformVecLen, hv])

/-- Witness for C3 (amended) at a concrete resolved Program: name "u"
stored at uniform location 7, array [1, 2, 3], no dim. -/
theorem C3_uniform_dispatch_witness :
    (Program.uniform (fun _ => some 0) [("u", Loc.uloc 7)] "u"
        (.arr [1, 2, 3]) false none).trace
      = [.glVector "uniform3fv" (.uloc 7) [1, 2, 3]] := by
  have h := (C3_uniform_dispatch (fun _ => some 0) [("u", Loc.uloc 7)] "u"
    [1, 2, 3] false none 0 false (.uloc 7) rfl).1 rfl
  simpa using h

end IglooTS
